import Mathlib

/-!
Shallow embedding of the catapult repository's periodic background
scheduler (`src/catapult/event_loop.py`), configuration resolution
pipeline (`src/catapult/config.py`) and readiness aggregator
(`src/catapult/main.py`), together with proofs of the specification's
claims about them.

Modelling conventions:
* Python exceptions become `Except String`; a function that catches an
  exception internally is total and records the logged error as an event.
* The worker thread's loop body is a step function on an explicit state;
  `none` from the step means the loop exited.
* Log lines that the claims talk about (warnings, caught-callback errors)
  are recorded explicitly; purely informational log lines are elided.
-/

namespace Catapult

/-! ### Event loop (`event_loop.py`) -/

/-- Observable events emitted by one pass of the worker loop:
callback invocations, the error log lines of the two `except` blocks,
the default-branch debug check, and the sleeps. -/
inductive LoopEvent where
  | callbackInvoked (i : Nat)
  | callbackError (i : Nat) (msg : String)
  | loopError (msg : String)
  | defaultCheck
  | sleep (secs : Nat)
deriving DecidableEq, Repr

/-- The scheduler state of `EventLoop.__init__`: interval, running flag,
worker handle, optional callback.  A callback is modelled as a function
from the invocation index to its outcome (`Except.error` = it raised).
`threads_spawned` records every worker thread ever created, newest last,
so that claims about "exactly one worker" are statable. -/
structure EventLoop where
  check_interval : Nat := 15
  is_running : Bool := false
  loop_thread : Option Nat := none
  state_check_callback : Option (Nat → Except String Unit) := none
  next_thread_id : Nat := 0
  threads_spawned : List Nat := []
  warnings : List String := []

/-- `EventLoop.set_state_check_callback`. -/
def EventLoop.set_state_check_callback (el : EventLoop)
    (cb : Nat → Except String Unit) : EventLoop :=
  { el with state_check_callback := some cb }

/-- `EventLoop.start`: warn and do nothing when already running,
otherwise set the flag and spawn a fresh worker thread. -/
def EventLoop.start (el : EventLoop) : EventLoop :=
  if el.is_running then
    { el with warnings := el.warnings ++ ["Event loop is already running"] }
  else
    { el with
        is_running := true
        loop_thread := some el.next_thread_id
        threads_spawned := el.threads_spawned ++ [el.next_thread_id]
        next_thread_id := el.next_thread_id + 1 }

/-- Result of `EventLoop.stop`: the updated state plus the timeout that
was passed to `Thread.join` (`none` when no thread existed so no join
happened).  `join` with a timeout returns normally whether or not the
thread exited, so no other outcome is recorded. -/
structure StopResult where
  el : EventLoop
  join_timeout : Option Nat

/-- `EventLoop.stop`: clear the running flag, then join the worker (if
one was ever created) with a 5 second timeout. -/
def EventLoop.stop (el : EventLoop) : StopResult :=
  let el' := { el with is_running := false }
  { el := el', join_timeout := if el'.loop_thread.isSome then some 5 else none }

/-- `EventLoop._check_state`: invoke the callback if set, catching and
logging anything it raises; otherwise log the default debug check.
Typed as `Except` to mirror Python fallibility, though every branch
returns normally. -/
def checkState (cb : Option (Nat → Except String Unit)) (i : Nat) :
    Except String (List LoopEvent) :=
  match cb with
  | some f =>
    match f i with
    | .ok _ => .ok [.callbackInvoked i]
    | .error e => .ok [.callbackInvoked i, .callbackError i e]
  | none => .ok [.defaultCheck]

/-- The worker thread's view: the scheduler state plus how many
callback invocations have happened so far. -/
structure WorkerState where
  el : EventLoop
  invocation : Nat

/-- One pass of `EventLoop._run_loop`: check the running flag (`none`
means the `while` exits), then run `_check_state` and sleep for the full
interval; if `_check_state` itself raised, log and still sleep the full
interval.  The loop body never writes the scheduler state. -/
def workerStep (ws : WorkerState) : Option (WorkerState × List LoopEvent) :=
  if ws.el.is_running then
    some ({ ws with invocation := ws.invocation + 1 },
      match checkState ws.el.state_check_callback ws.invocation with
      | .ok evs => evs ++ [.sleep ws.el.check_interval]
      | .error e => [.loopError e, .sleep ws.el.check_interval])
  else none

/-- Events of up to `fuel` passes of the worker loop. -/
def workerRun (ws : WorkerState) : Nat → List LoopEvent
  | 0 => []
  | n + 1 =>
    match workerStep ws with
    | some (ws', evs) => evs ++ workerRun ws' n
    | none => []

/-! ### Configuration resolution (`config.py`)

The raw mapping produced by `yaml.safe_load` (restricted to the keys the
schema knows; a field of `none` means the key is absent) and the
validated pydantic models.  The process environment is a partial map
from variable name to value, mirroring `os.environ` lookups. -/

/-- Raw `catapult.server` mapping. -/
structure RawServer where
  host : Option String := none
  port : Option Int := none
  reload : Option Bool := none
  log_level : Option String := none
deriving DecidableEq, Repr

/-- Raw `catapult.event_loop` mapping. -/
structure RawEventLoop where
  check_interval : Option Int := none
  enabled : Option Bool := none
deriving DecidableEq, Repr

/-- Raw `catapult` mapping. -/
structure RawCatapult where
  server : Option RawServer := none
  event_loop : Option RawEventLoop := none
  app_name : Option String := none
  app_description : Option String := none
  app_version : Option String := none
deriving DecidableEq, Repr

/-- Raw `jira` mapping. -/
structure RawJira where
  enabled : Option Bool := none
  base_url : Option String := none
  username : Option String := none
  api_token : Option String := none
  timeout : Option Int := none
deriving DecidableEq, Repr

/-- Raw `argocd` mapping. -/
structure RawArgoCD where
  enabled : Option Bool := none
  base_url : Option String := none
  username : Option String := none
  password : Option String := none
  token : Option String := none
  timeout : Option Int := none
  verify_ssl : Option Bool := none
deriving DecidableEq, Repr

/-- Raw `firehydrant` mapping. -/
structure RawFireHydrant where
  enabled : Option Bool := none
  base_url : Option String := none
  api_token : Option String := none
  timeout : Option Int := none
deriving DecidableEq, Repr

/-- The whole raw configuration mapping. -/
structure RawApp where
  catapult : Option RawCatapult := none
  jira : Option RawJira := none
  argocd : Option RawArgoCD := none
  firehydrant : Option RawFireHydrant := none
deriving DecidableEq, Repr

/-- The process environment: `os.environ` as a partial map. -/
def EnvMap : Type := String → Option String

/-- The environment with no variables set. -/
def emptyEnv : EnvMap := fun _ => none

/-- ASCII lowercase of one character (the configuration values the
code lowercases are ASCII). -/
def lowerChar (c : Char) : Char :=
  match c with
  | 'A' => 'a' | 'B' => 'b' | 'C' => 'c' | 'D' => 'd' | 'E' => 'e' | 'F' => 'f'
  | 'G' => 'g' | 'H' => 'h' | 'I' => 'i' | 'J' => 'j' | 'K' => 'k' | 'L' => 'l'
  | 'M' => 'm' | 'N' => 'n' | 'O' => 'o' | 'P' => 'p' | 'Q' => 'q' | 'R' => 'r'
  | 'S' => 's' | 'T' => 't' | 'U' => 'u' | 'V' => 'v' | 'W' => 'w' | 'X' => 'x'
  | 'Y' => 'y' | 'Z' => 'z' | c => c

/-- Python's `s.lower()` on ASCII strings. -/
def pyLower (s : String) : String := ⟨s.data.map lowerChar⟩

/-- Python's `s.lower() == "true"` coercion for `*_ENABLED` overrides. -/
def parseEnvBool (s : String) : Bool := pyLower s == "true"

/-- The `setdefault("catapult", {}).setdefault("server", {})[key] = v`
idiom: update the server sub-mapping, materialising missing levels. -/
def setServer (c : RawApp) (f : RawServer → RawServer) : RawApp :=
  let cat := c.catapult.getD {}
  { c with catapult := some { cat with server := some (f (cat.server.getD {})) } }

/-- `setdefault("jira", {})[key] = v`. -/
def setJira (c : RawApp) (f : RawJira → RawJira) : RawApp :=
  { c with jira := some (f (c.jira.getD {})) }

/-- `setdefault("argocd", {})[key] = v`. -/
def setArgoCD (c : RawApp) (f : RawArgoCD → RawArgoCD) : RawApp :=
  { c with argocd := some (f (c.argocd.getD {})) }

/-- `setdefault("firehydrant", {})[key] = v`. -/
def setFireHydrant (c : RawApp) (f : RawFireHydrant → RawFireHydrant) : RawApp :=
  { c with firehydrant := some (f (c.firehydrant.getD {})) }

/-! One function per `if "X" in os.environ:` block of
`_apply_env_overrides`, applied in the source's order. -/

/-- `CATAPULT_SERVER_HOST` override. -/
def ovServerHost (env : EnvMap) (c : RawApp) : RawApp :=
  match env "CATAPULT_SERVER_HOST" with
  | some v => setServer c (fun s => { s with host := some v })
  | none => c

/-- Decimal value of a digit list, most significant first. -/
def digitsVal (ds : List Char) : Nat :=
  ds.foldl (fun n c => n * 10 + (c.toNat - 48)) 0

/-- Python `int(...)` on a decimal string: an optional leading minus
sign followed by at least one digit (whitespace and other bases are not
modelled); `none` = `int()` raises `ValueError`. -/
def parsePyInt (s : String) : Option Int :=
  match s.data with
  | [] => none
  | '-' :: ds =>
    if ds.isEmpty then none
    else if ds.all (fun c => c.isDigit) then some (-(digitsVal ds : Int)) else none
  | ds => if ds.all (fun c => c.isDigit) then some ((digitsVal ds : Nat) : Int) else none

/-- `CATAPULT_SERVER_PORT` override; `int(...)` can raise `ValueError`,
which propagates out of `load_config` unwrapped. -/
def ovServerPort (env : EnvMap) (c : RawApp) : Except String RawApp :=
  match env "CATAPULT_SERVER_PORT" with
  | some v =>
    match parsePyInt v with
    | some n => .ok (setServer c (fun s => { s with port := some n }))
    | none => .error ("invalid literal for int with base 10: " ++ v)
  | none => .ok c

/-- `CATAPULT_LOG_LEVEL` override. -/
def ovLogLevel (env : EnvMap) (c : RawApp) : RawApp :=
  match env "CATAPULT_LOG_LEVEL" with
  | some v => setServer c (fun s => { s with log_level := some v })
  | none => c

/-- `JIRA_ENABLED` override. -/
def ovJiraEnabled (env : EnvMap) (c : RawApp) : RawApp :=
  match env "JIRA_ENABLED" with
  | some v => setJira c (fun j => { j with enabled := some (parseEnvBool v) })
  | none => c

/-- `JIRA_BASE_URL` override. -/
def ovJiraBaseUrl (env : EnvMap) (c : RawApp) : RawApp :=
  match env "JIRA_BASE_URL" with
  | some v => setJira c (fun j => { j with base_url := some v })
  | none => c

/-- `JIRA_USERNAME` override. -/
def ovJiraUsername (env : EnvMap) (c : RawApp) : RawApp :=
  match env "JIRA_USERNAME" with
  | some v => setJira c (fun j => { j with username := some v })
  | none => c

/-- `JIRA_API_TOKEN` override. -/
def ovJiraApiToken (env : EnvMap) (c : RawApp) : RawApp :=
  match env "JIRA_API_TOKEN" with
  | some v => setJira c (fun j => { j with api_token := some v })
  | none => c

/-- `ARGOCD_ENABLED` override. -/
def ovArgoEnabled (env : EnvMap) (c : RawApp) : RawApp :=
  match env "ARGOCD_ENABLED" with
  | some v => setArgoCD c (fun a => { a with enabled := some (parseEnvBool v) })
  | none => c

/-- `ARGOCD_BASE_URL` override. -/
def ovArgoBaseUrl (env : EnvMap) (c : RawApp) : RawApp :=
  match env "ARGOCD_BASE_URL" with
  | some v => setArgoCD c (fun a => { a with base_url := some v })
  | none => c

/-- `ARGOCD_USERNAME` override. -/
def ovArgoUsername (env : EnvMap) (c : RawApp) : RawApp :=
  match env "ARGOCD_USERNAME" with
  | some v => setArgoCD c (fun a => { a with username := some v })
  | none => c

/-- `ARGOCD_PASSWORD` override. -/
def ovArgoPassword (env : EnvMap) (c : RawApp) : RawApp :=
  match env "ARGOCD_PASSWORD" with
  | some v => setArgoCD c (fun a => { a with password := some v })
  | none => c

/-- `ARGOCD_TOKEN` override. -/
def ovArgoToken (env : EnvMap) (c : RawApp) : RawApp :=
  match env "ARGOCD_TOKEN" with
  | some v => setArgoCD c (fun a => { a with token := some v })
  | none => c

/-- `FIREHYDRANT_ENABLED` override. -/
def ovFhEnabled (env : EnvMap) (c : RawApp) : RawApp :=
  match env "FIREHYDRANT_ENABLED" with
  | some v => setFireHydrant c (fun h => { h with enabled := some (parseEnvBool v) })
  | none => c

/-- `FIREHYDRANT_BASE_URL` override. -/
def ovFhBaseUrl (env : EnvMap) (c : RawApp) : RawApp :=
  match env "FIREHYDRANT_BASE_URL" with
  | some v => setFireHydrant c (fun h => { h with base_url := some v })
  | none => c

/-- `FIREHYDRANT_API_TOKEN` override. -/
def ovFhApiToken (env : EnvMap) (c : RawApp) : RawApp :=
  match env "FIREHYDRANT_API_TOKEN" with
  | some v => setFireHydrant c (fun h => { h with api_token := some v })
  | none => c

/-- `_apply_env_overrides`: each recognised variable, when present, is
written to its fixed dotted path in the source's order. -/
def applyEnvOverrides (env : EnvMap) (c0 : RawApp) : Except String RawApp := do
  let c := ovServerHost env c0
  let c ← ovServerPort env c
  let c := ovLogLevel env c
  let c := ovJiraEnabled env c
  let c := ovJiraBaseUrl env c
  let c := ovJiraUsername env c
  let c := ovJiraApiToken env c
  let c := ovArgoEnabled env c
  let c := ovArgoBaseUrl env c
  let c := ovArgoUsername env c
  let c := ovArgoPassword env c
  let c := ovArgoToken env c
  let c := ovFhEnabled env c
  let c := ovFhBaseUrl env c
  let c := ovFhApiToken env c
  return c

/-! Validated pydantic models.  Construction is `Except`: a raised
`ValueError` from a validator or `model_post_init` becomes `.error`. -/

/-- Validated `ServerConfig`. -/
structure ServerConfig where
  host : String
  port : Int
  reload : Bool
  log_level : String
deriving DecidableEq, Repr

/-- Validated `EventLoopConfig`. -/
structure EventLoopConfig where
  check_interval : Int
  enabled : Bool
deriving DecidableEq, Repr

/-- Validated `CatapultConfig`. -/
structure CatapultConfig where
  server : ServerConfig
  event_loop : EventLoopConfig
  app_name : String
  app_description : String
  app_version : String
deriving DecidableEq, Repr

/-- Validated `JiraConfig`. -/
structure JiraConfig where
  enabled : Bool
  base_url : Option String
  username : Option String
  api_token : Option String
  timeout : Int
deriving DecidableEq, Repr

/-- Validated `ArgoCDConfig`. -/
structure ArgoCDConfig where
  enabled : Bool
  base_url : Option String
  username : Option String
  password : Option String
  token : Option String
  timeout : Int
  verify_ssl : Bool
deriving DecidableEq, Repr

/-- Validated `FireHydrantConfig`. -/
structure FireHydrantConfig where
  enabled : Bool
  base_url : Option String
  api_token : Option String
  timeout : Int
deriving DecidableEq, Repr

/-- Validated `AppConfig`. -/
structure AppConfig where
  catapult : CatapultConfig
  jira : JiraConfig
  argocd : ArgoCDConfig
  firehydrant : FireHydrantConfig
deriving DecidableEq, Repr

/-- The valid `log_level` values of `ServerConfig.validate_log_level`. -/
def validLogLevels : List String := ["debug", "info", "warning", "error", "critical"]

/-- Python truthiness of an optional string: `None` and `""` are falsy. -/
def truthyStr (o : Option String) : Bool :=
  match o with
  | none => false
  | some s => !(s == "")

/-- `ServerConfig` construction with its `log_level` field validator. -/
def mkServerConfig (r : RawServer) : Except String ServerConfig :=
  let lv := r.log_level.getD "info"
  if validLogLevels.contains (pyLower lv) then
    .ok { host := r.host.getD "0.0.0.0", port := r.port.getD 8000,
          reload := r.reload.getD false, log_level := pyLower lv }
  else .error "log_level must be one of [debug, info, warning, error, critical]"

/-- `EventLoopConfig` construction (no validators). -/
def mkEventLoopConfig (r : RawEventLoop) : EventLoopConfig :=
  { check_interval := r.check_interval.getD 15, enabled := r.enabled.getD true }

/-- `CatapultConfig` construction. -/
def mkCatapultConfig (r : RawCatapult) : Except String CatapultConfig := do
  let server ← mkServerConfig (r.server.getD {})
  return { server
           event_loop := mkEventLoopConfig (r.event_loop.getD {})
           app_name := r.app_name.getD "Catapult API"
           app_description := r.app_description.getD "A base HTTP API with Prometheus metrics"
           app_version := r.app_version.getD "1.0.0" }

/-- `JiraConfig` construction with its `model_post_init` checks. -/
def mkJiraConfig (r : RawJira) : Except String JiraConfig :=
  let enabled := r.enabled.getD false
  if enabled && !truthyStr r.base_url then
    .error "base_url is required when Jira is enabled"
  else if enabled && !truthyStr r.username then
    .error "username is required when Jira is enabled"
  else if enabled && !truthyStr r.api_token then
    .error "api_token is required when Jira is enabled"
  else
    .ok { enabled, base_url := r.base_url, username := r.username,
          api_token := r.api_token, timeout := r.timeout.getD 30 }

/-- `ArgoCDConfig` construction with its `model_post_init` check. -/
def mkArgoCDConfig (r : RawArgoCD) : Except String ArgoCDConfig :=
  let enabled := r.enabled.getD false
  if enabled && !truthyStr r.base_url then
    .error "base_url is required when ArgoCD is enabled"
  else
    .ok { enabled, base_url := r.base_url, username := r.username,
          password := r.password, token := r.token,
          timeout := r.timeout.getD 30, verify_ssl := r.verify_ssl.getD true }

/-- `FireHydrantConfig` construction with its `model_post_init` checks. -/
def mkFireHydrantConfig (r : RawFireHydrant) : Except String FireHydrantConfig :=
  let enabled := r.enabled.getD false
  if enabled && !truthyStr r.base_url then
    .error "base_url is required when FireHydrant is enabled"
  else if enabled && !truthyStr r.api_token then
    .error "api_token is required when FireHydrant is enabled"
  else
    .ok { enabled, base_url := r.base_url, api_token := r.api_token,
          timeout := r.timeout.getD 30 }

/-- `AppConfig(**config_data)`: construct every section, a raised
validation error in any section aborting construction. -/
def mkAppConfig (r : RawApp) : Except String AppConfig := do
  let catapult ← mkCatapultConfig (r.catapult.getD {})
  let jira ← mkJiraConfig (r.jira.getD {})
  let argocd ← mkArgoCDConfig (r.argocd.getD {})
  let firehydrant ← mkFireHydrantConfig (r.firehydrant.getD {})
  return { catapult, jira, argocd, firehydrant }

/-- `AppConfig()`: every field at its default. -/
def defaultAppConfig : AppConfig :=
  { catapult :=
      { server := { host := "0.0.0.0", port := 8000, reload := false, log_level := "info" }
        event_loop := { check_interval := 15, enabled := true }
        app_name := "Catapult API"
        app_description := "A base HTTP API with Prometheus metrics"
        app_version := "1.0.0" }
    jira := { enabled := false, base_url := none, username := none,
              api_token := none, timeout := 30 }
    argocd := { enabled := false, base_url := none, username := none,
                password := none, token := none, timeout := 30, verify_ssl := true }
    firehydrant := { enabled := false, base_url := none, api_token := none,
                     timeout := 30 } }

/-- The errors `load_config` can surface, mirroring §7's taxonomy:
`FileNotFoundError`, `yaml.YAMLError`, the wrapped validation
`ValueError`, and the unwrapped `ValueError` from `int()` on an
environment override. -/
inductive ConfigError where
  | notFound (msg : String)
  | parseError (msg : String)
  | validationError (msg : String)
  | envError (msg : String)
deriving DecidableEq, Repr

/-- What reading and `yaml.safe_load`-ing a file can yield: a parse
failure, or a document (`none` = the document is empty / parses to
`null`). -/
inductive FileContent where
  | yamlBad (msg : String)
  | yamlDoc (doc : Option RawApp)
deriving DecidableEq, Repr

/-- The filesystem: a partial map from path to file content
(`none` = no file at that path). -/
def FS : Type := String → Option FileContent

/-- The conventional locations probed when no explicit path is given. -/
def possible_paths : List String :=
  ["config.yaml", "config/config.yaml", "/etc/catapult/config.yaml"]

/-- The first of the candidate paths that exists. -/
def firstExisting (fs : FS) : List String → Option String
  | [] => none
  | p :: ps => if (fs p).isSome then some p else firstExisting fs ps

/-- The open/parse/override/validate tail of `load_config`, run once a
concrete path is in hand. -/
def loadFromFile (fs : FS) (env : EnvMap) (p : String) : Except ConfigError AppConfig :=
  match fs p with
  | none => .error (.notFound ("Configuration file not found: " ++ p))
  | some (.yamlBad m) => .error (.parseError ("Failed to parse YAML configuration: " ++ m))
  | some (.yamlDoc d) =>
    let config_data := d.getD {}
    match applyEnvOverrides env config_data with
    | .error m => .error (.envError m)
    | .ok cd =>
      match mkAppConfig cd with
      | .ok c => .ok c
      | .error m => .error (.validationError ("Configuration validation failed: " ++ m))

/-- `load_config`: resolve the path (explicit, or the first conventional
location), then load; when no explicit path is given and no conventional
location exists, return `AppConfig()` directly. -/
def load_config (fs : FS) (env : EnvMap) (config_path : Option String) :
    Except ConfigError AppConfig :=
  match config_path with
  | some p => loadFromFile fs env p
  | none =>
    match firstExisting fs possible_paths with
    | some p => loadFromFile fs env p
    | none => .ok defaultAppConfig

/-! ### Readiness aggregation (`main.py`, `ready_check`) -/

/-- The runtime facts `ready_check` consults about one integration:
whether its config section is enabled, whether its module-level client
handle was constructed, and what `test_connection()` would report. -/
structure IntegrationRuntime where
  enabled : Bool
  clientConstructed : Bool
  probeOk : Bool
deriving DecidableEq, Repr

/-- The three integrations' runtime facts. -/
structure ReadyInput where
  jira : IntegrationRuntime
  argocd : IntegrationRuntime
  firehydrant : IntegrationRuntime
deriving DecidableEq, Repr

/-- The readiness response body: overall status plus the
`services` mapping in insertion order. -/
structure ReadyReport where
  status : String
  services : List (String × String)
deriving DecidableEq, Repr

/-- One `if config.X.enabled and x_client: ... elif config.X.enabled: ...`
block of `ready_check`, threading the accumulated services mapping and
the `overall_ready` flag. -/
def checkOne (name : String) (i : IntegrationRuntime)
    (acc : List (String × String) × Bool) : List (String × String) × Bool :=
  if i.enabled && i.clientConstructed then
    (acc.1 ++ [(name, if i.probeOk then "ready" else "not ready")], acc.2 && i.probeOk)
  else if i.enabled then
    (acc.1 ++ [(name, "not configured")], false)
  else acc

/-- `ready_check`: probe jira, argocd and firehydrant in order and
aggregate into one report. -/
def ready_check (inp : ReadyInput) : ReadyReport :=
  let acc1 := checkOne "jira" inp.jira ([], true)
  let acc2 := checkOne "argocd" inp.argocd acc1
  let acc3 := checkOne "firehydrant" inp.firehydrant acc2
  { status := if acc3.2 then "ready" else "not ready", services := acc3.1 }

/-! ### Derived observations used in statements -/

/-- The raw mapping's `catapult.server.port` entry, with missing levels
read as empty (as `setdefault` and pydantic defaulting both do). -/
def serverPortOf (c : RawApp) : Option Int :=
  ((c.catapult.getD {}).server.getD {}).port

/-- The `model_post_init` requirement of `JiraConfig`: disabled, or all
of base_url / username / api_token non-empty. -/
def jiraRequiredOk (r : RawJira) : Bool :=
  !(r.enabled.getD false) ||
    (truthyStr r.base_url && truthyStr r.username && truthyStr r.api_token)

/-- The `model_post_init` requirement of `ArgoCDConfig`: disabled, or
base_url non-empty. -/
def argocdRequiredOk (r : RawArgoCD) : Bool :=
  !(r.enabled.getD false) || truthyStr r.base_url

/-- The `model_post_init` requirement of `FireHydrantConfig`: disabled,
or base_url and api_token non-empty. -/
def firehydrantRequiredOk (r : RawFireHydrant) : Bool :=
  !(r.enabled.getD false) || (truthyStr r.base_url && truthyStr r.api_token)

/-- Whether an `Except` is an error (the construction raised). -/
def isErr {e a : Type} : Except e a → Bool
  | .error _ => true
  | .ok _ => false

/-- Whether a `load_config` outcome is the wrapped validation
`ValueError`. -/
def isValidationError : Except ConfigError AppConfig → Bool
  | .error (.validationError _) => true
  | _ => false

/-- Equality of `Except` outcomes is decidable, so concrete runs of the
pipeline can be checked by evaluation. -/
instance {e a : Type} [DecidableEq e] [DecidableEq a] : DecidableEq (Except e a) :=
  fun x y =>
    match x, y with
    | .error u, .error v =>
      match decEq u v with
      | isTrue h => isTrue (by rw [h])
      | isFalse h => isFalse (fun hh => h (Except.error.inj hh))
    | .ok u, .ok v =>
      match decEq u v with
      | isTrue h => isTrue (by rw [h])
      | isFalse h => isFalse (fun hh => h (Except.ok.inj hh))
    | .error _, .ok _ => isFalse (fun hh => nomatch hh)
    | .ok _, .error _ => isFalse (fun hh => nomatch hh)

/-! ### Helper lemmas -/

lemma serverPortOf_ovLogLevel (env : EnvMap) (c : RawApp) :
    serverPortOf (ovLogLevel env c) = serverPortOf c := by
  unfold ovLogLevel; cases env "CATAPULT_LOG_LEVEL" <;> rfl

lemma serverPortOf_ovJiraEnabled (env : EnvMap) (c : RawApp) :
    serverPortOf (ovJiraEnabled env c) = serverPortOf c := by
  unfold ovJiraEnabled; cases env "JIRA_ENABLED" <;> rfl

lemma serverPortOf_ovJiraBaseUrl (env : EnvMap) (c : RawApp) :
    serverPortOf (ovJiraBaseUrl env c) = serverPortOf c := by
  unfold ovJiraBaseUrl; cases env "JIRA_BASE_URL" <;> rfl

lemma serverPortOf_ovJiraUsername (env : EnvMap) (c : RawApp) :
    serverPortOf (ovJiraUsername env c) = serverPortOf c := by
  unfold ovJiraUsername; cases env "JIRA_USERNAME" <;> rfl

lemma serverPortOf_ovJiraApiToken (env : EnvMap) (c : RawApp) :
    serverPortOf (ovJiraApiToken env c) = serverPortOf c := by
  unfold ovJiraApiToken; cases env "JIRA_API_TOKEN" <;> rfl

lemma serverPortOf_ovArgoEnabled (env : EnvMap) (c : RawApp) :
    serverPortOf (ovArgoEnabled env c) = serverPortOf c := by
  unfold ovArgoEnabled; cases env "ARGOCD_ENABLED" <;> rfl

lemma serverPortOf_ovArgoBaseUrl (env : EnvMap) (c : RawApp) :
    serverPortOf (ovArgoBaseUrl env c) = serverPortOf c := by
  unfold ovArgoBaseUrl; cases env "ARGOCD_BASE_URL" <;> rfl

lemma serverPortOf_ovArgoUsername (env : EnvMap) (c : RawApp) :
    serverPortOf (ovArgoUsername env c) = serverPortOf c := by
  unfold ovArgoUsername; cases env "ARGOCD_USERNAME" <;> rfl

lemma serverPortOf_ovArgoPassword (env : EnvMap) (c : RawApp) :
    serverPortOf (ovArgoPassword env c) = serverPortOf c := by
  unfold ovArgoPassword; cases env "ARGOCD_PASSWORD" <;> rfl

lemma serverPortOf_ovArgoToken (env : EnvMap) (c : RawApp) :
    serverPortOf (ovArgoToken env c) = serverPortOf c := by
  unfold ovArgoToken; cases env "ARGOCD_TOKEN" <;> rfl

lemma serverPortOf_ovFhEnabled (env : EnvMap) (c : RawApp) :
    serverPortOf (ovFhEnabled env c) = serverPortOf c := by
  unfold ovFhEnabled; cases env "FIREHYDRANT_ENABLED" <;> rfl

lemma serverPortOf_ovFhBaseUrl (env : EnvMap) (c : RawApp) :
    serverPortOf (ovFhBaseUrl env c) = serverPortOf c := by
  unfold ovFhBaseUrl; cases env "FIREHYDRANT_BASE_URL" <;> rfl

lemma serverPortOf_ovFhApiToken (env : EnvMap) (c : RawApp) :
    serverPortOf (ovFhApiToken env c) = serverPortOf c := by
  unfold ovFhApiToken; cases env "FIREHYDRANT_API_TOKEN" <;> rfl

/-- When the port variable is set to a parseable value, the override
layer leaves the raw mapping with exactly that port, regardless of what
the file provided. -/
lemma applyEnvOverrides_port (env : EnvMap) (c c' : RawApp) (s : String) (n : Int)
    (hp : env "CATAPULT_SERVER_PORT" = some s) (hs : parsePyInt s = some n)
    (h : applyEnvOverrides env c = .ok c') :
    serverPortOf c' = some n := by
  unfold applyEnvOverrides ovServerPort at h
  simp only [hp, hs, bind, Except.bind, pure, Except.pure] at h
  injection h with h
  subst h
  simp only [serverPortOf_ovLogLevel, serverPortOf_ovJiraEnabled, serverPortOf_ovJiraBaseUrl,
        serverPortOf_ovJiraUsername, serverPortOf_ovJiraApiToken, serverPortOf_ovArgoEnabled,
        serverPortOf_ovArgoBaseUrl, serverPortOf_ovArgoUsername, serverPortOf_ovArgoPassword,
        serverPortOf_ovArgoToken, serverPortOf_ovFhEnabled, serverPortOf_ovFhBaseUrl,
        serverPortOf_ovFhApiToken]
  rfl

lemma mkServerConfig_port (r : RawServer) (sc : ServerConfig)
    (h : mkServerConfig r = .ok sc) : sc.port = r.port.getD 8000 := by
  unfold mkServerConfig at h
  simp only [] at h
  split at h
  · injection h with h
    subst h
    rfl
  · cases h

lemma mkCatapultConfig_port (r : RawCatapult) (cc : CatapultConfig)
    (h : mkCatapultConfig r = .ok cc) :
    cc.server.port = (r.server.getD {}).port.getD 8000 := by
  unfold mkCatapultConfig at h
  simp only [bind, Except.bind] at h
  cases hs : mkServerConfig (r.server.getD {}) <;> rw [hs] at h
  · cases h
  · simp only [pure, Except.pure] at h
    injection h with h
    subst h
    exact mkServerConfig_port _ _ hs

/-- Whatever survives validation reads its port from the merged raw
mapping (default 8000). -/
lemma mkAppConfig_port (cd : RawApp) (c : AppConfig) (h : mkAppConfig cd = .ok c) :
    c.catapult.server.port = (serverPortOf cd).getD 8000 := by
  unfold mkAppConfig at h
  simp only [bind, Except.bind] at h
  cases hcat : mkCatapultConfig (cd.catapult.getD {}) <;> rw [hcat] at h
  · cases h
  · cases hj : mkJiraConfig (cd.jira.getD {}) <;> rw [hj] at h
    · cases h
    · cases ha : mkArgoCDConfig (cd.argocd.getD {}) <;> rw [ha] at h
      · cases h
      · cases hf : mkFireHydrantConfig (cd.firehydrant.getD {}) <;> rw [hf] at h
        · cases h
        · simp only [pure, Except.pure] at h
          injection h with h
          subst h
          exact mkCatapultConfig_port _ _ hcat

lemma mkJiraConfig_ok (r : RawJira) (j : JiraConfig) (h : mkJiraConfig r = .ok j) :
    jiraRequiredOk r = true := by
  cases he : r.enabled.getD false <;> cases hb : truthyStr r.base_url <;>
    cases hu : truthyStr r.username <;> cases ht : truthyStr r.api_token <;>
    simp_all [mkJiraConfig, jiraRequiredOk]

lemma mkArgoCDConfig_ok (r : RawArgoCD) (a : ArgoCDConfig) (h : mkArgoCDConfig r = .ok a) :
    argocdRequiredOk r = true := by
  cases he : r.enabled.getD false <;> cases hb : truthyStr r.base_url <;>
    simp_all [mkArgoCDConfig, argocdRequiredOk]

lemma mkFireHydrantConfig_ok (r : RawFireHydrant) (f : FireHydrantConfig)
    (h : mkFireHydrantConfig r = .ok f) : firehydrantRequiredOk r = true := by
  cases he : r.enabled.getD false <;> cases hb : truthyStr r.base_url <;>
    cases ht : truthyStr r.api_token <;>
    simp_all [mkFireHydrantConfig, firehydrantRequiredOk]

/-- If any enabled integration in the merged raw mapping misses one of
its required fields, `AppConfig(**config_data)` raises. -/
lemma mkAppConfig_err_of_bad (cd : RawApp)
    (hbad : jiraRequiredOk (cd.jira.getD {}) = false ∨
      argocdRequiredOk (cd.argocd.getD {}) = false ∨
      firehydrantRequiredOk (cd.firehydrant.getD {}) = false) :
    isErr (mkAppConfig cd) = true := by
  unfold mkAppConfig
  simp only [bind, Except.bind]
  cases hcat : mkCatapultConfig (cd.catapult.getD {})
  · rfl
  · cases hj : mkJiraConfig (cd.jira.getD {})
    · rfl
    · cases ha : mkArgoCDConfig (cd.argocd.getD {})
      · rfl
      · cases hf : mkFireHydrantConfig (cd.firehydrant.getD {})
        · rfl
        · exfalso
          rcases hbad with hb | hb | hb
          · rw [mkJiraConfig_ok _ _ hj] at hb; cases hb
          · rw [mkArgoCDConfig_ok _ _ ha] at hb; cases hb
          · rw [mkFireHydrantConfig_ok _ _ hf] at hb; cases hb

/-! ### Claim theorems -/

/-- C3: for every configuration file value and corresponding set
environment override, the environment value wins: with the file's
`catapult.server.port` at 8000 and `CATAPULT_SERVER_PORT=9000` in the
environment, any successfully resolved configuration carries port 9000. -/
theorem env_port_overrides_file (fs : FS) (env : EnvMap) (p : String) (raw : RawApp)
    (c : AppConfig)
    (hfile : fs p = some (.yamlDoc (some raw)))
    (hfileport : serverPortOf raw = some 8000)
    (henv : env "CATAPULT_SERVER_PORT" = some "9000")
    (hok : load_config fs env (some p) = .ok c) :
    c.catapult.server.port = 9000 := by
  simp only [load_config, loadFromFile, hfile, Option.getD] at hok
  cases happ : applyEnvOverrides env raw <;> simp only [happ] at hok
  case error => cases hok
  case ok cd =>
    cases hmk : mkAppConfig cd <;> simp only [hmk] at hok
    case error => cases hok
    case ok c2 =>
      injection hok with hok
      subst hok
      rw [mkAppConfig_port _ _ hmk,
          applyEnvOverrides_port env raw cd "9000" 9000 henv (by decide) happ]
      rfl

/-- C7: an explicit path that names no existing file makes `load_config`
fail with the file-not-found error naming that path; it never falls back
to defaults. -/
theorem explicit_path_missing_errors (fs : FS) (env : EnvMap) (p : String)
    (h : fs p = none) :
    load_config fs env (some p) =
      .error (.notFound ("Configuration file not found: " ++ p)) := by
  simp only [load_config, loadFromFile, h]

/-- C4: with no explicit path, no conventional file, and
`CATAPULT_SERVER_PORT=9000` set, `load_config` returns the plain
defaults (port 8000): the early `return AppConfig()` skips
`_apply_env_overrides`, contradicting the documented resolution order. -/
theorem defaults_skip_env_overrides :
    load_config (fun _ => none)
        (fun n => if n = "CATAPULT_SERVER_PORT" then some "9000" else none) none =
      .ok defaultAppConfig
    ∧ defaultAppConfig.catapult.server.port = 8000 := ⟨rfl, rfl⟩

/-- C6: an integration section enabled in the merged configuration but
missing a required credential or base-url field (empty or absent) makes
construction of the configuration raise, and `load_config` abort with
the wrapped validation error — at construction time, not at use time. -/
theorem enabled_missing_required_fails (fs : FS) (env : EnvMap) (p : String)
    (d : Option RawApp) (cd : RawApp)
    (hfile : fs p = some (.yamlDoc d))
    (henv : applyEnvOverrides env (d.getD {}) = .ok cd)
    (hbad : jiraRequiredOk (cd.jira.getD {}) = false ∨
      argocdRequiredOk (cd.argocd.getD {}) = false ∨
      firehydrantRequiredOk (cd.firehydrant.getD {}) = false) :
    isErr (mkAppConfig cd) = true ∧
    isValidationError (load_config fs env (some p)) = true := by
  have h1 := mkAppConfig_err_of_bad cd hbad
  refine ⟨h1, ?_⟩
  simp only [load_config, loadFromFile, hfile, henv]
  cases hmk : mkAppConfig cd <;> simp only [hmk]
  · rfl
  · rw [hmk] at h1
    simp [isErr] at h1

/-- C9: a file that parses to the empty document is treated exactly like
one holding the empty mapping; resolution then proceeds through the
override and validation layers, and with no overrides set it succeeds
with the default configuration. -/
theorem empty_yaml_as_empty_mapping (fs : FS) (env : EnvMap) (p : String)
    (hfile : fs p = some (.yamlDoc none)) :
    load_config fs env (some p) =
      load_config (fun q => if q = p then some (.yamlDoc (some {})) else fs q) env (some p)
    ∧ (∀ cd c, applyEnvOverrides env {} = .ok cd → mkAppConfig cd = .ok c →
        load_config fs env (some p) = .ok c)
    ∧ load_config fs emptyEnv (some p) = .ok defaultAppConfig := by
  refine ⟨?_, ?_, ?_⟩
  · simp [load_config, loadFromFile, hfile]
  · intro cd c h1 h2
    simp only [load_config, loadFromFile, hfile, Option.getD_none, h1, h2]
  · simp only [load_config, loadFromFile, hfile]
    rfl

/-- The worker loop under a callback that raises on every invocation:
each pass invokes the callback, logs the caught error, and sleeps the
full interval, for as long as fuel lasts. -/
lemma workerRun_always_failing (el : EventLoop) (f : Nat → Except String Unit)
    (g : Nat → String)
    (hcb : el.state_check_callback = some f) (hrun : el.is_running = true)
    (herr : ∀ i, f i = .error (g i)) :
    ∀ n i, workerRun ⟨el, i⟩ n = (List.range' i n).flatMap
      (fun j => [.callbackInvoked j, .callbackError j (g j), .sleep el.check_interval]) := by
  intro n
  induction n with
  | zero => intro i; simp [workerRun]
  | succ n ih =>
    intro i
    have hstep : workerStep ⟨el, i⟩ = some (⟨el, i + 1⟩,
        [.callbackInvoked i, .callbackError i (g i), .sleep el.check_interval]) := by
      unfold workerStep checkState
      simp [hrun, hcb, herr i]
    simp only [workerRun, hstep, List.range'_succ, List.flatMap_cons, ih]

/-- C1: a callback that raises is caught and logged inside the tick; the
pass still ends with the normal full-interval sleep, the scheduler state
(running flag included) is untouched, and with an always-raising
callback every subsequent pass still invokes the callback — the schedule
never terminates and nothing propagates. -/
theorem callback_failure_isolated (ws : WorkerState) (f : Nat → Except String Unit)
    (e : String)
    (hcb : ws.el.state_check_callback = some f)
    (hrun : ws.el.is_running = true)
    (herr : f ws.invocation = .error e) :
    workerStep ws = some ({ ws with invocation := ws.invocation + 1 },
      [.callbackInvoked ws.invocation, .callbackError ws.invocation e,
       .sleep ws.el.check_interval])
    ∧ ({ ws with invocation := ws.invocation + 1 } : WorkerState).el.is_running = true
    ∧ (∀ g : Nat → String, (∀ i, f i = .error (g i)) →
        ∀ n, workerRun ws n = (List.range' ws.invocation n).flatMap
          (fun j => [.callbackInvoked j, .callbackError j (g j),
                     .sleep ws.el.check_interval])) := by
  refine ⟨?_, hrun, ?_⟩
  · unfold workerStep checkState
    simp [hrun, hcb, herr]
  · intro g hg n
    have := workerRun_always_failing ws.el f g hcb hrun hg n ws.invocation
    simpa using this

/-- C2: `start` on an already-running scheduler only logs a warning — it
spawns no second worker and changes no other state; from a non-running
state, two consecutive `start`s produce exactly one new worker. -/
theorem start_idempotent (el : EventLoop) :
    (el.is_running = true →
      (el.start).is_running = el.is_running ∧
      (el.start).loop_thread = el.loop_thread ∧
      (el.start).threads_spawned = el.threads_spawned ∧
      (el.start).warnings = el.warnings ++ ["Event loop is already running"])
    ∧ (el.is_running = false →
      (el.start).is_running = true ∧
      (el.start.start).threads_spawned = el.threads_spawned ++ [el.next_thread_id] ∧
      (el.start.start).loop_thread = some el.next_thread_id) := by
  constructor
  · intro h
    simp [EventLoop.start, h]
  · intro h
    simp [EventLoop.start, h]

/-- C8: `stop` clears the running flag (so the worker's next flag check
exits and no new tick begins), keeps the worker handle (no forced
termination), joins with a timeout of exactly 5 seconds when a worker
exists, and on a non-running scheduler changes nothing and raises
nothing. -/
theorem stop_semantics (el : EventLoop) :
    (el.stop).el.is_running = false
    ∧ (el.stop).el.loop_thread = el.loop_thread
    ∧ (∀ t, (el.stop).join_timeout = some t → t = 5)
    ∧ (∀ i, workerStep { el := (el.stop).el, invocation := i } = none)
    ∧ (el.is_running = false → (el.stop).el = el) := by
  refine ⟨rfl, rfl, ?_, ?_, ?_⟩
  · intro t ht
    unfold EventLoop.stop at ht
    simp only [] at ht
    split at ht
    · injection ht with ht
      exact ht.symm
    · cases ht
  · intro i
    unfold workerStep
    simp [EventLoop.stop]
  · intro h
    cases el
    simp_all [EventLoop.stop]

/-- C10: after `stop`, a new `start` succeeds: the running flag is true
again, a fresh worker thread is spawned and recorded, and the worker's
tick loop steps again — the scheduler is restartable. -/
theorem scheduler_restartable (el : EventLoop) :
    ((el.stop).el.start).is_running = true
    ∧ ((el.stop).el.start).loop_thread = some el.next_thread_id
    ∧ ((el.stop).el.start).threads_spawned = el.threads_spawned ++ [el.next_thread_id]
    ∧ (∀ i, (workerStep { el := (el.stop).el.start, invocation := i }).isSome = true) := by
  refine ⟨rfl, rfl, rfl, ?_⟩
  intro i
  unfold workerStep
  simp [EventLoop.stop, EventLoop.start]

set_option synthInstance.maxSize 2000 in
set_option maxHeartbeats 4000000 in
/-- C5: the readiness aggregation over every combination of
enabled/constructed/probe outcomes: zero enabled integrations give
overall "ready" with an empty services map; a disabled integration is
omitted; enabled-but-unconstructed reports "not configured" and forces
overall "not ready"; enabled-with-failing-probe reports "not ready" and
forces overall "not ready"; and overall is "ready" iff every enabled
integration has a constructed client whose probe succeeds. -/
theorem readiness_aggregation (je jc jp ae ac ap fe fc fp : Bool) :
    ((je = false ∧ ae = false ∧ fe = false) →
      ready_check ⟨⟨je, jc, jp⟩, ⟨ae, ac, ap⟩, ⟨fe, fc, fp⟩⟩ =
        { status := "ready", services := [] })
    ∧ (je = false →
      (ready_check ⟨⟨je, jc, jp⟩, ⟨ae, ac, ap⟩, ⟨fe, fc, fp⟩⟩).services.lookup "jira" = none)
    ∧ (ae = false →
      (ready_check ⟨⟨je, jc, jp⟩, ⟨ae, ac, ap⟩, ⟨fe, fc, fp⟩⟩).services.lookup "argocd" = none)
    ∧ (fe = false →
      (ready_check ⟨⟨je, jc, jp⟩, ⟨ae, ac, ap⟩, ⟨fe, fc, fp⟩⟩).services.lookup "firehydrant" = none)
    ∧ (je = true → jc = false →
      (ready_check ⟨⟨je, jc, jp⟩, ⟨ae, ac, ap⟩, ⟨fe, fc, fp⟩⟩).services.lookup "jira" =
          some "not configured"
        ∧ (ready_check ⟨⟨je, jc, jp⟩, ⟨ae, ac, ap⟩, ⟨fe, fc, fp⟩⟩).status = "not ready")
    ∧ (ae = true → ac = false →
      (ready_check ⟨⟨je, jc, jp⟩, ⟨ae, ac, ap⟩, ⟨fe, fc, fp⟩⟩).services.lookup "argocd" =
          some "not configured"
        ∧ (ready_check ⟨⟨je, jc, jp⟩, ⟨ae, ac, ap⟩, ⟨fe, fc, fp⟩⟩).status = "not ready")
    ∧ (fe = true → fc = false →
      (ready_check ⟨⟨je, jc, jp⟩, ⟨ae, ac, ap⟩, ⟨fe, fc, fp⟩⟩).services.lookup "firehydrant" =
          some "not configured"
        ∧ (ready_check ⟨⟨je, jc, jp⟩, ⟨ae, ac, ap⟩, ⟨fe, fc, fp⟩⟩).status = "not ready")
    ∧ (je = true → jc = true → jp = false →
      (ready_check ⟨⟨je, jc, jp⟩, ⟨ae, ac, ap⟩, ⟨fe, fc, fp⟩⟩).services.lookup "jira" =
          some "not ready"
        ∧ (ready_check ⟨⟨je, jc, jp⟩, ⟨ae, ac, ap⟩, ⟨fe, fc, fp⟩⟩).status = "not ready")
    ∧ (ae = true → ac = true → ap = false →
      (ready_check ⟨⟨je, jc, jp⟩, ⟨ae, ac, ap⟩, ⟨fe, fc, fp⟩⟩).services.lookup "argocd" =
          some "not ready"
        ∧ (ready_check ⟨⟨je, jc, jp⟩, ⟨ae, ac, ap⟩, ⟨fe, fc, fp⟩⟩).status = "not ready")
    ∧ (fe = true → fc = true → fp = false →
      (ready_check ⟨⟨je, jc, jp⟩, ⟨ae, ac, ap⟩, ⟨fe, fc, fp⟩⟩).services.lookup "firehydrant" =
          some "not ready"
        ∧ (ready_check ⟨⟨je, jc, jp⟩, ⟨ae, ac, ap⟩, ⟨fe, fc, fp⟩⟩).status = "not ready")
    ∧ ((ready_check ⟨⟨je, jc, jp⟩, ⟨ae, ac, ap⟩, ⟨fe, fc, fp⟩⟩).status = "ready" ↔
        ((je = true → jc = true ∧ jp = true) ∧ (ae = true → ac = true ∧ ap = true) ∧
         (fe = true → fc = true ∧ fp = true))) := by
  cases je <;> cases jc <;> cases jp <;> cases ae <;> cases ac <;> cases ap <;>
    cases fe <;> cases fc <;> cases fp <;>
    decide

/-! ### Witness inputs and witnesses -/

/-- A callback raising on every invocation. -/
def cbBoom : Nat → Except String Unit := fun _ => Except.error "boom"

/-- A running scheduler with the always-raising callback installed. -/
def elC1 : EventLoop := { is_running := true, state_check_callback := some cbBoom }

/-- A scheduler whose worker is running. -/
def elLive : EventLoop :=
  { is_running := true, loop_thread := some 0, threads_spawned := [0], next_thread_id := 1 }

/-- A freshly constructed scheduler (never started). -/
def elStopped : EventLoop := {}

/-- A filesystem whose every path holds a file mapping
`catapult.server.port` to 8000. -/
def fsC3 : FS :=
  fun _ => some (.yamlDoc (some { catapult := some { server := some { port := some 8000 } } }))

/-- An environment with only `CATAPULT_SERVER_PORT=9000` set. -/
def envC3 : EnvMap := fun n => if n = "CATAPULT_SERVER_PORT" then some "9000" else none

/-- The configuration resolved from `fsC3` under `envC3`: defaults with
port 9000. -/
def appC3 : AppConfig :=
  { defaultAppConfig with
      catapult := { defaultAppConfig.catapult with
        server := { defaultAppConfig.catapult.server with port := 9000 } } }

/-- A filesystem whose every path enables jira without credentials. -/
def fsC6 : FS := fun _ => some (.yamlDoc (some { jira := some { enabled := some true } }))

/-- A filesystem whose every path holds an empty YAML document. -/
def fsC9 : FS := fun _ => some (.yamlDoc none)

/-- Witness for C1 at a concrete scheduler: two passes of the loop under
the always-raising callback yield two caught-and-logged failures and two
full-interval sleeps. -/
theorem callback_failure_isolated_witness :
    workerRun ⟨elC1, 0⟩ 2 = (List.range' 0 2).flatMap
      (fun j => [LoopEvent.callbackInvoked j, LoopEvent.callbackError j "boom",
                 LoopEvent.sleep 15]) :=
  (callback_failure_isolated ⟨elC1, 0⟩ cbBoom "boom" rfl rfl rfl).2.2
    (fun _ => "boom") (fun _ => rfl) 2

/-- Witness for C2: starting the running scheduler spawns nothing, and
double-starting a fresh scheduler spawns exactly one worker. -/
theorem start_idempotent_witness :
    (elLive.start).threads_spawned = elLive.threads_spawned ∧
    (({} : EventLoop).start.start).threads_spawned = [0] := by
  refine ⟨((start_idempotent elLive).1 rfl).2.2.1, ?_⟩
  have h := ((start_idempotent {}).2 rfl).2.1
  simpa using h

/-- Witness for C3: the concrete file/environment pair resolves to port
9000. -/
theorem env_port_overrides_file_witness : appC3.catapult.server.port = 9000 :=
  env_port_overrides_file fsC3 envC3 "config.yaml"
    { catapult := some { server := some { port := some 8000 } } } appC3
    rfl rfl (by decide) (by decide)

/-- Witness for C5 at concrete inputs: all-disabled is overall "ready";
one enabled integration with a failing probe is overall "not ready". -/
theorem readiness_aggregation_witness :
    ready_check ⟨⟨false, false, false⟩, ⟨false, false, false⟩, ⟨false, false, false⟩⟩ =
      { status := "ready", services := [] } ∧
    (ready_check ⟨⟨true, true, false⟩, ⟨false, false, false⟩, ⟨false, false, false⟩⟩).status =
      "not ready" :=
  ⟨(readiness_aggregation false false false false false false false false false).1
      ⟨rfl, rfl, rfl⟩,
   ((readiness_aggregation true true false false false false false false false).2.2.2.2.2.2.2.1
      rfl rfl rfl).2⟩

/-- Witness for C6: a file enabling jira with no credentials makes
`load_config` fail with the wrapped validation error. -/
theorem enabled_missing_required_fails_witness :
    isValidationError (load_config fsC6 emptyEnv (some "config.yaml")) = true :=
  (enabled_missing_required_fails fsC6 emptyEnv "config.yaml"
    (some { jira := some { enabled := some true } }) { jira := some { enabled := some true } }
    rfl rfl (Or.inl (by decide))).2

/-- Witness for C7 at a concrete missing path. -/
theorem explicit_path_missing_errors_witness :
    load_config (fun _ => none) emptyEnv (some "/nonexistent/path/config.yaml") =
      .error (.notFound ("Configuration file not found: " ++ "/nonexistent/path/config.yaml")) :=
  explicit_path_missing_errors (fun _ => none) emptyEnv "/nonexistent/path/config.yaml" rfl

/-- Witness for C8 at concrete schedulers: after stopping the live
scheduler the worker takes no further tick and the join used timeout 5;
stopping a never-started scheduler changes nothing. -/
theorem stop_semantics_witness :
    workerStep { el := (elLive.stop).el, invocation := 0 } = none ∧
    (elStopped.stop).el = elStopped ∧ (5 : Nat) = 5 :=
  ⟨(stop_semantics elLive).2.2.2.1 0,
   (stop_semantics elStopped).2.2.2.2 rfl,
   (stop_semantics elLive).2.2.1 5 rfl⟩

/-- Witness for C9 at a concrete empty-document file: resolution
succeeds with the defaults. -/
theorem empty_yaml_as_empty_mapping_witness :
    load_config fsC9 emptyEnv (some "config.yaml") = .ok defaultAppConfig :=
  (empty_yaml_as_empty_mapping fsC9 emptyEnv "config.yaml" rfl).2.2

end Catapult
